import Mathlib

/-!
Verification of the auth package of firebase-admin-go (src/auth/auth.go):
minting of custom tokens (CustomToken, CustomTokenWithClaims), verification
of ID tokens (VerifyIDToken) and the revocation check
(VerifyIDTokenAndCheckRevoked).

The JSON/base64url codec, the cryptographic signature check (verifyToken),
the key source, the signer implementations and the user-record lookup
(GetUser) live outside src/; they are modelled from the spec as abstract
inputs: the codec as structured header/payload data, the crypto check as an
optional error outcome, GetUser as a function parameter, and the clock as an
integer parameter (clk.Now().Unix()).
-/

namespace FirebaseAuth

/-- Modelled from the spec: arbitrary JSON-compatible claim values
("an open mapping of additional claim names to arbitrary JSON-compatible
values"). -/
inductive JsonValue where
  | null
  | bool (b : Bool)
  | num (n : Int)
  | str (s : String)
  | arr (elts : List JsonValue)
  | obj (fields : List (String × JsonValue))

/-- A Go `map[string]interface\x7b\x7d` of claims, as an association list. -/
abbrev ClaimMap := List (String × JsonValue)

/-- Go map membership test `_, contains := m[k]`. -/
def containsKey (m : ClaimMap) (k : String) : Bool :=
  m.any (fun kv => kv.1 == k)

/-- Go `delete(m, k)`: removes the key (all entries for it) from the map. -/
def deleteKey (m : ClaimMap) (k : String) : ClaimMap :=
  m.filter (fun kv => kv.1 != k)

/-- Constant `firebaseAudience` from src/auth/auth.go line 32. -/
def firebaseAudience : String :=
  "https://identitytoolkit.googleapis.com/google.identity.identitytoolkit.v1.IdentityToolkit"

/-- Constant `issuerPrefix` from src/auth/auth.go line 34. -/
def issuerPrefix : String := "https://securetoken.google.com/"

/-- Constant `tokenExpSeconds` from src/auth/auth.go line 35. -/
def tokenExpSeconds : Int := 3600

/-- The `reservedClaims` list from src/auth/auth.go lines 38-41. -/
def reservedClaims : List String :=
  ["acr", "amr", "at_hash", "aud", "auth_time", "azp", "cnf", "c_hash",
   "exp", "firebase", "iat", "iss", "jti", "nbf", "nonce", "sub"]

/-- Modelled from the spec: the `jwtHeader` shape (defined outside src/) —
"algorithm name and token type, read from the first segment of an inbound
token", plus the key identifier (kid) named by the verifier. A minted header
carries no kid, represented by the empty string (the Go zero value). -/
structure JwtHeader where
  algorithm : String
  typ : String
  keyID : String
  deriving Repr, DecidableEq

/-- The `Token` struct from src/auth/auth.go lines 50-58. Standard claims
are typed fields; `claims` holds the remaining custom claims. -/
structure Token where
  issuer : String
  audience : String
  expires : Int
  issuedAt : Int
  subject : String
  uid : String
  claims : ClaimMap

/-- The standard claim names deleted from the generic claim map, from
src/auth/auth.go line 237 (and line 72). -/
def standardClaimNames : List String :=
  ["iss", "aud", "exp", "iat", "sub", "uid"]

/-- Modelled from the spec: JSON extraction of a string field from the
decoded payload map (the `decode` helper lives outside src/); absent fields
take the Go zero value. -/
def getStr (m : ClaimMap) (k : String) : String :=
  match m.lookup k with
  | some (JsonValue.str s) => s
  | _ => ""

/-- Modelled from the spec: JSON extraction of an integer field from the
decoded payload map; absent fields take the Go zero value. -/
def getInt (m : ClaimMap) (k : String) : Int :=
  match m.lookup k with
  | some (JsonValue.num n) => n
  | _ => 0

/-- Go loop at src/auth/auth.go lines 236-239: delete every standard claim
name from the generic claim map. -/
def stripStandardClaims (m : ClaimMap) : ClaimMap :=
  standardClaimNames.foldl deleteKey m

/-- Decoding of the payload segment as done in VerifyIDToken lines 230-240:
once into the typed `Token` shape, once into a generic map from which the
standard claim names are then deleted. -/
def decodePayload (m : ClaimMap) : Token :=
  { issuer := getStr m "iss"
    audience := getStr m "aud"
    expires := getInt m "exp"
    issuedAt := getInt m "iat"
    subject := getStr m "sub"
    uid := getStr m "uid"
    claims := stripStandardClaims m }

/-- Errors returned by CustomTokenWithClaims, one constructor per distinct
error site in src/auth/auth.go lines 151-171. -/
inductive MintError where
  | signer (msg : String)
  | invalidUID
  | reservedClaim (k : String)
  | reservedClaimsJoined (ks : String)
  deriving Repr, DecidableEq

/-- Modelled from the spec: the outbound custom-token claim set (the
`customToken` payload struct lives outside src/) — "issuer and subject
(both the signing identity), audience (a fixed constant), target user
identifier, issued-at, expiry, and an optional mapping of developer-supplied
claims". Field names follow the fields set at src/auth/auth.go
lines 176-184. -/
structure CustomTokenPayload where
  iss : String
  sub : String
  aud : String
  uid : String
  iat : Int
  exp : Int
  claims : ClaimMap

/-- The `jwtInfo` value built at src/auth/auth.go lines 174-185: header plus
payload, before the (spec-modelled) codec serializes and signs it. -/
structure JwtInfo where
  header : JwtHeader
  payload : CustomTokenPayload

/-- Client.CustomTokenWithClaims, src/auth/auth.go lines 151-187.
The signer is represented by the outcome of its Email call
(`emailResult`), the clock by `now` (clk.Now().Unix()); Go `len` on a
string is its UTF-8 byte count. The result is the `jwtInfo` handed to the
codec; serialization and signing happen outside src/. -/
def customTokenWithClaims (emailResult : Except String String) (now : Int)
    (uid : String) (devClaims : ClaimMap) : Except MintError JwtInfo :=
  match emailResult with
  | Except.error e => Except.error (MintError.signer e)
  | Except.ok iss =>
    if uid.utf8ByteSize = 0 ∨ uid.utf8ByteSize > 128 then
      Except.error MintError.invalidUID
    else
      match reservedClaims.filter (fun k => containsKey devClaims k) with
      | [] =>
        Except.ok
          { header := { algorithm := "RS256", typ := "JWT", keyID := "" }
            payload :=
              { iss := iss
                sub := iss
                aud := firebaseAudience
                uid := uid
                iat := now
                exp := now + tokenExpSeconds
                claims := devClaims } }
      | [k] => Except.error (MintError.reservedClaim k)
      | ks => Except.error (MintError.reservedClaimsJoined (String.intercalate ", " ks))

/-- Client.CustomToken, src/auth/auth.go lines 145-147: delegates to
CustomTokenWithClaims with a nil claim map. -/
def customToken (emailResult : Except String String) (now : Int)
    (uid : String) : Except MintError JwtInfo :=
  customTokenWithClaims emailResult now uid []

/-- Errors returned by VerifyIDToken and VerifyIDTokenAndCheckRevoked, one
constructor per distinct error site in src/auth/auth.go lines 209-299. -/
inductive VerifyError where
  | projectIDUnavailable
  | emptyIDToken
  | crypto (msg : String)
  | customTokenReceived
  | missingKeyID
  | invalidAlgorithm (alg : String)
  | invalidAudience (aud : String)
  | invalidIssuer (iss : String)
  | issuedInFuture (iat : Int)
  | expired (exp : Int)
  | emptySubject
  | subjectTooLong
  | userLookup (msg : String)
  | revoked
  deriving Repr, DecidableEq

/-- An inbound ID token as the verifier sees it. `raw` is the token string
(only its emptiness is inspected in src/); `header` and `payloadMap` are the
decoded first and second segments (the base64url/JSON codec lives outside
src/ and is modelled from the spec as already-decoded data); `cryptoErr` is
the outcome of the `verifyToken` cryptographic check (outside src/),
modelled from the spec: "any failure here (unknown key id, algorithm
mismatch at the crypto layer, signature mismatch) is a hard failure". -/
structure IDTokenInput where
  raw : String
  header : JwtHeader
  payloadMap : ClaimMap
  cryptoErr : Option String

/-- Client.VerifyIDToken, src/auth/auth.go lines 209-279. -/
def verifyIDToken (projectID : String) (now : Int) (t : IDTokenInput) :
    Except VerifyError Token :=
  if projectID = "" then Except.error VerifyError.projectIDUnavailable
  else if t.raw = "" then Except.error VerifyError.emptyIDToken
  else
    match t.cryptoErr with
    | some e => Except.error (VerifyError.crypto e)
    | none =>
      let payload := decodePayload t.payloadMap
      let issuer := issuerPrefix ++ projectID
      if t.header.keyID = "" then
        if payload.audience = firebaseAudience then
          Except.error VerifyError.customTokenReceived
        else
          Except.error VerifyError.missingKeyID
      else if t.header.algorithm ≠ "RS256" then
        Except.error (VerifyError.invalidAlgorithm t.header.algorithm)
      else if payload.audience ≠ projectID then
        Except.error (VerifyError.invalidAudience payload.audience)
      else if payload.issuer ≠ issuer then
        Except.error (VerifyError.invalidIssuer payload.issuer)
      else if payload.issuedAt > now then
        Except.error (VerifyError.issuedInFuture payload.issuedAt)
      else if payload.expires < now then
        Except.error (VerifyError.expired payload.expires)
      else if payload.subject = "" then
        Except.error VerifyError.emptySubject
      else if payload.subject.utf8ByteSize > 128 then
        Except.error VerifyError.subjectTooLong
      else
        Except.ok { payload with uid := payload.subject }

/-- Modelled from the spec: the slice of the user record consumed by the
revocation check — "GetUser(uid) -> \x7bTokensValidAfterMillis, ...\x7d"
(user management code lives outside src/). -/
structure UserRecord where
  tokensValidAfterMillis : Int
  deriving Repr, DecidableEq

/-- Client.VerifyIDTokenAndCheckRevoked, src/auth/auth.go lines 285-300.
The user-record collaborator is the function parameter `getUser`. -/
def verifyIDTokenAndCheckRevoked (projectID : String) (now : Int)
    (getUser : String → Except String UserRecord) (t : IDTokenInput) :
    Except VerifyError Token :=
  match verifyIDToken projectID now t with
  | Except.error e => Except.error e
  | Except.ok p =>
    match getUser p.uid with
    | Except.error e => Except.error (VerifyError.userLookup e)
    | Except.ok user =>
      if p.issuedAt * 1000 < user.tokensValidAfterMillis then
        Except.error VerifyError.revoked
      else
        Except.ok p

/-- Modelled from the spec: the codec flattening of an outbound custom-token
payload into the JSON payload segment — "Payload fields: iss, sub, aud, uid,
iat, exp, plus flattened custom claims" (the serializer lives outside
src/). -/
def encodePayload (p : CustomTokenPayload) : ClaimMap :=
  [("iss", JsonValue.str p.iss), ("sub", JsonValue.str p.sub),
   ("aud", JsonValue.str p.aud), ("uid", JsonValue.str p.uid),
   ("iat", JsonValue.num p.iat), ("exp", JsonValue.num p.exp)] ++ p.claims

/-- The eight semantic claim checks of VerifyIDToken (src/auth/auth.go
lines 248-272) as an ordered guard list: each entry pairs the failure
condition with the error it produces, in source order (a) to (h). -/
def semanticChecks (projectID : String) (now : Int) (header : JwtHeader)
    (payload : Token) : List (Bool × VerifyError) :=
  [ (decide (header.keyID = ""),
     if payload.audience = firebaseAudience then VerifyError.customTokenReceived
     else VerifyError.missingKeyID),
    (decide (header.algorithm ≠ "RS256"), VerifyError.invalidAlgorithm header.algorithm),
    (decide (payload.audience ≠ projectID), VerifyError.invalidAudience payload.audience),
    (decide (payload.issuer ≠ issuerPrefix ++ projectID), VerifyError.invalidIssuer payload.issuer),
    (decide (payload.issuedAt > now), VerifyError.issuedInFuture payload.issuedAt),
    (decide (payload.expires < now), VerifyError.expired payload.expires),
    (decide (payload.subject = ""), VerifyError.emptySubject),
    (decide (payload.subject.utf8ByteSize > 128), VerifyError.subjectTooLong) ]

/-- The first failing check of an ordered guard list wins. -/
def firstFailing : List (Bool × VerifyError) → Option VerifyError
  | [] => none
  | (b, e) :: rest => if b then some e else firstFailing rest

theorem containsKey_eq_false_iff (m : ClaimMap) (k : String) :
    containsKey m k = false ↔ ∀ kv ∈ m, kv.1 ≠ k := by
  simp [containsKey, List.any_eq_false]

theorem mem_deleteKey (m : ClaimMap) (k2 : String) (kv : String × JsonValue) :
    kv ∈ deleteKey m k2 ↔ kv ∈ m ∧ kv.1 ≠ k2 := by
  simp [deleteKey, List.mem_filter]

theorem containsKey_deleteKey_self (m : ClaimMap) (k : String) :
    containsKey (deleteKey m k) k = false := by
  rw [containsKey_eq_false_iff]
  intro kv hm
  exact ((mem_deleteKey m k kv).1 hm).2

theorem containsKey_deleteKey_of_eq_false (m : ClaimMap) (k k2 : String)
    (h : containsKey m k = false) : containsKey (deleteKey m k2) k = false := by
  rw [containsKey_eq_false_iff] at h ⊢
  intro kv hm
  exact h kv ((mem_deleteKey m k2 kv).1 hm).1

theorem containsKey_foldl_deleteKey_of_eq_false (k : String) :
    ∀ (names : List String) (m : ClaimMap), containsKey m k = false →
      containsKey (names.foldl deleteKey m) k = false
  | [], _, h => h
  | a :: rest, m, h =>
    containsKey_foldl_deleteKey_of_eq_false k rest (deleteKey m a)
      (containsKey_deleteKey_of_eq_false m k a h)

theorem containsKey_foldl_deleteKey (k : String) :
    ∀ (names : List String) (m : ClaimMap), k ∈ names →
      containsKey (names.foldl deleteKey m) k = false
  | [], _, hk => absurd hk (List.not_mem_nil k)
  | a :: rest, m, hk => by
    rcases List.mem_cons.1 hk with h | h
    · subst h
      exact containsKey_foldl_deleteKey_of_eq_false k rest (deleteKey m k)
        (containsKey_deleteKey_self m k)
    · exact containsKey_foldl_deleteKey k rest (deleteKey m a) h

theorem containsKey_stripStandardClaims (m : ClaimMap) (k : String)
    (hk : k ∈ standardClaimNames) : containsKey (stripStandardClaims m) k = false :=
  containsKey_foldl_deleteKey k standardClaimNames m hk

/-- Claim C10: CustomTokenWithClaims resolves the signer identity before any
input validation — whenever the signer Email call fails, the returned error
is that signer error, for every uid and claim map, including empty or
overlong uids and claim maps holding reserved keys. -/
theorem claim_C10_signer_error_first (e : String) (now : Int) (uid : String)
    (devClaims : ClaimMap) :
    customTokenWithClaims (Except.error e) now uid devClaims =
      Except.error (MintError.signer e) := rfl

/-- Claim C6: for every uid of length 0 or greater than 128 (Go len, UTF-8
bytes), CustomToken and CustomTokenWithClaims fail with the invalid-uid
input-validation error and return no token (given that signer identity
resolution succeeded, per C10). -/
theorem claim_C6_invalid_uid (email : String) (now : Int) (uid : String)
    (devClaims : ClaimMap) (h : uid.utf8ByteSize = 0 ∨ uid.utf8ByteSize > 128) :
    customTokenWithClaims (Except.ok email) now uid devClaims =
      Except.error MintError.invalidUID ∧
    customToken (Except.ok email) now uid = Except.error MintError.invalidUID := by
  have key : ∀ m : ClaimMap, customTokenWithClaims (Except.ok email) now uid m =
      Except.error MintError.invalidUID := by
    intro m
    unfold customTokenWithClaims
    exact if_pos h
  exact ⟨key devClaims, key []⟩

/-- Claim C6 witness at the concrete empty uid. -/
theorem claim_C6_invalid_uid_witness :
    ("".utf8ByteSize = 0 ∨ "".utf8ByteSize > 128) ∧
    (customTokenWithClaims (Except.ok "svc@example.com") 7 "" [("role", JsonValue.str "x")] =
        Except.error MintError.invalidUID ∧
      customToken (Except.ok "svc@example.com") 7 "" = Except.error MintError.invalidUID) :=
  ⟨Or.inl rfl, claim_C6_invalid_uid "svc@example.com" 7 "" [("role", JsonValue.str "x")]
    (Or.inl rfl)⟩

/-- Claim C8: every successful mint produces a payload whose issuer and
subject both equal the signer identity, whose audience is the fixed
custom-token audience constant, whose issued-at is the current clock time in
seconds, and whose expiry is issued-at plus exactly 3600 seconds. -/
theorem claim_C8_mint_payload (email : String) (now : Int) (uid : String)
    (devClaims : ClaimMap) (info : JwtInfo)
    (h : customTokenWithClaims (Except.ok email) now uid devClaims = Except.ok info) :
    info.payload.iss = email ∧ info.payload.sub = email ∧
    info.payload.aud = firebaseAudience ∧ info.payload.iat = now ∧
    info.payload.exp = info.payload.iat + 3600 := by
  simp only [customTokenWithClaims] at h
  split at h
  · cases h
  · split at h
    · cases h
      exact ⟨rfl, rfl, rfl, rfl, rfl⟩
    · cases h
    · cases h

/-- Claim C8 witness at a concrete successful mint. -/
theorem claim_C8_mint_payload_witness :
    ({ iss := "svc@example.com", sub := "svc@example.com", aud := firebaseAudience,
       uid := "user1", iat := 100, exp := 3700,
       claims := [] } : CustomTokenPayload).iss = "svc@example.com" ∧
    ({ iss := "svc@example.com", sub := "svc@example.com", aud := firebaseAudience,
       uid := "user1", iat := 100, exp := 3700,
       claims := [] } : CustomTokenPayload).sub = "svc@example.com" ∧
    ({ iss := "svc@example.com", sub := "svc@example.com", aud := firebaseAudience,
       uid := "user1", iat := 100, exp := 3700,
       claims := [] } : CustomTokenPayload).aud = firebaseAudience ∧
    ({ iss := "svc@example.com", sub := "svc@example.com", aud := firebaseAudience,
       uid := "user1", iat := 100, exp := 3700,
       claims := [] } : CustomTokenPayload).iat = 100 ∧
    ({ iss := "svc@example.com", sub := "svc@example.com", aud := firebaseAudience,
       uid := "user1", iat := 100, exp := 3700,
       claims := [] } : CustomTokenPayload).exp =
      ({ iss := "svc@example.com", sub := "svc@example.com", aud := firebaseAudience,
         uid := "user1", iat := 100, exp := 3700,
         claims := [] } : CustomTokenPayload).iat + 3600 :=
  claim_C8_mint_payload "svc@example.com" 100 "user1" [] _ rfl

/-- Claim C3: whenever the cryptographic signature-verification step fails
(signature mismatch, unknown key id, or algorithm mismatch at the crypto
layer), VerifyIDToken returns that cryptographic error and never reaches any
semantic claim check. -/
theorem claim_C3_crypto_error_is_final (projectID : String) (now : Int)
    (t : IDTokenInput) (e : String) (hp : projectID ≠ "") (hr : t.raw ≠ "")
    (hc : t.cryptoErr = some e) :
    verifyIDToken projectID now t = Except.error (VerifyError.crypto e) := by
  unfold verifyIDToken
  rw [if_neg hp, if_neg hr, hc]

/-- Claim C3 witness at a concrete token with a flipped-signature crypto
failure. -/
theorem claim_C3_crypto_error_is_final_witness :
    verifyIDToken "project1" 0
      { raw := "h.p.s", header := { algorithm := "RS256", typ := "JWT", keyID := "k1" },
        payloadMap := [], cryptoErr := some "signature mismatch" } =
      Except.error (VerifyError.crypto "signature mismatch") :=
  claim_C3_crypto_error_is_final "project1" 0 _ "signature mismatch"
    (by decide) (by decide) rfl

/-- Claim C5: for every token whose header key identifier is empty (crypto
having passed), VerifyIDToken reports customTokenReceived when the payload
audience equals the custom-token audience constant and missingKeyID
otherwise. -/
theorem claim_C5_missing_kid_branch (projectID : String) (now : Int)
    (t : IDTokenInput) (hp : projectID ≠ "") (hr : t.raw ≠ "")
    (hc : t.cryptoErr = none) (hk : t.header.keyID = "") :
    verifyIDToken projectID now t =
      (if (decodePayload t.payloadMap).audience = firebaseAudience then
        Except.error VerifyError.customTokenReceived
      else
        Except.error VerifyError.missingKeyID) := by
  simp [verifyIDToken, hp, hr, hc, hk]

/-- Claim C5 witness at a concrete kid-less token carrying the custom-token
audience. -/
theorem claim_C5_missing_kid_branch_witness :
    verifyIDToken "proj9" 50
      { raw := "x.y.z", header := { algorithm := "RS256", typ := "JWT", keyID := "" },
        payloadMap := [("aud", JsonValue.str firebaseAudience)], cryptoErr := none } =
      (if (decodePayload [("aud", JsonValue.str firebaseAudience)]).audience = firebaseAudience then
        Except.error VerifyError.customTokenReceived
      else
        Except.error VerifyError.missingKeyID) :=
  claim_C5_missing_kid_branch "proj9" 50 _ (by decide) (by decide) rfl rfl

/-- Claim C7: with signer resolution and uid validation passing, a claim map
containing exactly one reserved key fails with the singular-form error
naming exactly that key; a map containing two or more reserved keys fails
with the plural-form error naming all of them joined by ", "; a map with no
reserved key raises no reserved-claims error (the mint succeeds). The
reserved keys present are computed, in reserved-list order, by filtering
reservedClaims through membership in the claim map. -/
theorem claim_C7_reserved_claims (email : String) (now : Int) (uid : String)
    (devClaims : ClaimMap)
    (hu : ¬(uid.utf8ByteSize = 0 ∨ uid.utf8ByteSize > 128)) :
    (∀ k, reservedClaims.filter (fun r => containsKey devClaims r) = [k] →
      customTokenWithClaims (Except.ok email) now uid devClaims =
        Except.error (MintError.reservedClaim k)) ∧
    (∀ k1 k2 ks, reservedClaims.filter (fun r => containsKey devClaims r) = k1 :: k2 :: ks →
      customTokenWithClaims (Except.ok email) now uid devClaims =
        Except.error (MintError.reservedClaimsJoined
          (String.intercalate ", " (k1 :: k2 :: ks)))) ∧
    (reservedClaims.filter (fun r => containsKey devClaims r) = [] →
      ∃ info, customTokenWithClaims (Except.ok email) now uid devClaims =
        Except.ok info) := by
  refine ⟨?_, ?_, ?_⟩
  · intro k hf
    simp only [customTokenWithClaims, if_neg hu, hf]
  · intro k1 k2 ks hf
    simp only [customTokenWithClaims, if_neg hu, hf]
  · intro hf
    exact ⟨_, by simp only [customTokenWithClaims, if_neg hu, hf]; rfl⟩

/-- Claim C7 witness: a map holding the two reserved keys aud and exp fails
with the plural error naming both, comma-joined. -/
theorem claim_C7_reserved_claims_witness :
    ¬("u".utf8ByteSize = 0 ∨ "u".utf8ByteSize > 128) ∧
    customTokenWithClaims (Except.ok "svc@example.com") 5 "u"
        [("aud", JsonValue.null), ("exp", JsonValue.null)] =
      Except.error (MintError.reservedClaimsJoined "aud, exp") :=
  ⟨by decide,
   (claim_C7_reserved_claims "svc@example.com" 5 "u"
      [("aud", JsonValue.null), ("exp", JsonValue.null)] (by decide)).2.1
     "aud" "exp" [] rfl⟩

/-- Claim C9: every token accepted by VerifyIDToken carries a Claims map
from which all standard claim names (iss, aud, exp, iat, sub, uid) have been
removed, leaving only custom claims. -/
theorem claim_C9_no_standard_claims (projectID : String) (now : Int)
    (t : IDTokenInput) (tok : Token)
    (h : verifyIDToken projectID now t = Except.ok tok) :
    ∀ k ∈ standardClaimNames, containsKey tok.claims k = false := by
  have hclaims : tok.claims = stripStandardClaims t.payloadMap := by
    simp only [verifyIDToken] at h
    repeat' split at h
    all_goals try cases h
    rfl
  intro k hk
  rw [hclaims]
  exact containsKey_stripStandardClaims t.payloadMap k hk

/-- Claim C9 witness: an accepted concrete token retains only the custom
claim and no longer holds the standard claim sub. -/
theorem claim_C9_no_standard_claims_witness :
    verifyIDToken "proj1" 1000
        { raw := "h.p.s",
          header := { algorithm := "RS256", typ := "JWT", keyID := "k1" },
          payloadMap := [("iss", JsonValue.str "https://securetoken.google.com/proj1"),
                         ("aud", JsonValue.str "proj1"), ("exp", JsonValue.num 2000),
                         ("iat", JsonValue.num 500), ("sub", JsonValue.str "user1"),
                         ("premium", JsonValue.bool true)],
          cryptoErr := none } =
      Except.ok { issuer := "https://securetoken.google.com/proj1", audience := "proj1",
                  expires := 2000, issuedAt := 500, subject := "user1", uid := "user1",
                  claims := [("premium", JsonValue.bool true)] } ∧
    containsKey ({ issuer := "https://securetoken.google.com/proj1", audience := "proj1",
                   expires := 2000, issuedAt := 500, subject := "user1", uid := "user1",
                   claims := [("premium", JsonValue.bool true)] } : Token).claims "sub" = false :=
  ⟨rfl, claim_C9_no_standard_claims "proj1" 1000
    { raw := "h.p.s",
      header := { algorithm := "RS256", typ := "JWT", keyID := "k1" },
      payloadMap := [("iss", JsonValue.str "https://securetoken.google.com/proj1"),
                     ("aud", JsonValue.str "proj1"), ("exp", JsonValue.num 2000),
                     ("iat", JsonValue.num 500), ("sub", JsonValue.str "user1"),
                     ("premium", JsonValue.bool true)],
      cryptoErr := none }
    { issuer := "https://securetoken.google.com/proj1", audience := "proj1",
      expires := 2000, issuedAt := 500, subject := "user1", uid := "user1",
      claims := [("premium", JsonValue.bool true)] } rfl "sub" (by decide)⟩

/-- Claim C2: once the preconditions hold and the cryptographic check has
passed, VerifyIDToken behaves exactly as the ordered guard list of the eight
semantic checks (a) through (h): the returned error is the one produced by
the first failing check, and if none fails verification succeeds with the
decoded token whose uid is copied from its subject. -/
theorem claim_C2_ordered_checks (projectID : String) (now : Int) (t : IDTokenInput)
    (hp : projectID ≠ "") (hr : t.raw ≠ "") (hc : t.cryptoErr = none) :
    verifyIDToken projectID now t =
      (match firstFailing (semanticChecks projectID now t.header (decodePayload t.payloadMap)) with
       | some e => Except.error e
       | none => Except.ok { decodePayload t.payloadMap with
                             uid := (decodePayload t.payloadMap).subject }) := by
  simp only [verifyIDToken, semanticChecks, firstFailing, hc, if_neg hp, if_neg hr,
    decide_eq_true_eq]
  split_ifs <;> rfl

/-- Claim C2 witness at a concrete token whose first failing check is the
expiry check. -/
theorem claim_C2_ordered_checks_witness :
    verifyIDToken "projA" 100
      { raw := "a.b.c",
        header := { algorithm := "RS256", typ := "JWT", keyID := "kk" },
        payloadMap := [("iss", JsonValue.str "https://securetoken.google.com/projA"),
                       ("aud", JsonValue.str "projA"), ("exp", JsonValue.num 20),
                       ("iat", JsonValue.num 10), ("sub", JsonValue.str "u7")],
        cryptoErr := none } =
      (match firstFailing (semanticChecks "projA" 100
          { algorithm := "RS256", typ := "JWT", keyID := "kk" }
          (decodePayload [("iss", JsonValue.str "https://securetoken.google.com/projA"),
                          ("aud", JsonValue.str "projA"), ("exp", JsonValue.num 20),
                          ("iat", JsonValue.num 10), ("sub", JsonValue.str "u7")])) with
       | some e => Except.error e
       | none => Except.ok { decodePayload [("iss", JsonValue.str "https://securetoken.google.com/projA"),
                             ("aud", JsonValue.str "projA"), ("exp", JsonValue.num 20),
                             ("iat", JsonValue.num 10), ("sub", JsonValue.str "u7")] with
                             uid := (decodePayload [("iss", JsonValue.str "https://securetoken.google.com/projA"),
                               ("aud", JsonValue.str "projA"), ("exp", JsonValue.num 20),
                               ("iat", JsonValue.num 10), ("sub", JsonValue.str "u7")]).subject }) :=
  claim_C2_ordered_checks "projA" 100 _ (by decide) (by decide) rfl

/-- Claim C4: for every token VerifyIDToken accepts and whose user-record
lookup succeeds, VerifyIDTokenAndCheckRevoked returns the revoked error if
and only if the token issued-at in seconds times 1000 is strictly below the
user TokensValidAfterMillis; at exact equality the token is accepted. -/
theorem claim_C4_revocation_boundary (projectID : String) (now : Int)
    (getUser : String → Except String UserRecord) (t : IDTokenInput)
    (p : Token) (user : UserRecord)
    (hv : verifyIDToken projectID now t = Except.ok p)
    (hu : getUser p.uid = Except.ok user) :
    (verifyIDTokenAndCheckRevoked projectID now getUser t =
        Except.error VerifyError.revoked ↔
      p.issuedAt * 1000 < user.tokensValidAfterMillis) ∧
    (p.issuedAt * 1000 = user.tokensValidAfterMillis →
      verifyIDTokenAndCheckRevoked projectID now getUser t = Except.ok p) := by
  have hbody : verifyIDTokenAndCheckRevoked projectID now getUser t =
      (if p.issuedAt * 1000 < user.tokensValidAfterMillis then
        Except.error VerifyError.revoked
      else Except.ok p) := by
    unfold verifyIDTokenAndCheckRevoked
    rw [hv]
    dsimp only
    rw [hu]
  constructor
  · rw [hbody]
    by_cases hlt : p.issuedAt * 1000 < user.tokensValidAfterMillis <;> simp [hlt]
  · intro he
    rw [hbody, if_neg (by rw [he]; exact lt_irrefl _)]

/-- Claim C4 witness: a token issued at second 500 against a cutoff of
exactly 500000 milliseconds is accepted. -/
theorem claim_C4_revocation_boundary_witness :
    (verifyIDTokenAndCheckRevoked "proj1" 1000
        (fun _ => Except.ok ({ tokensValidAfterMillis := 500000 } : UserRecord))
        { raw := "h.p.s",
          header := { algorithm := "RS256", typ := "JWT", keyID := "k1" },
          payloadMap := [("iss", JsonValue.str "https://securetoken.google.com/proj1"),
                         ("aud", JsonValue.str "proj1"), ("exp", JsonValue.num 2000),
                         ("iat", JsonValue.num 500), ("sub", JsonValue.str "user2")],
          cryptoErr := none } =
        Except.error VerifyError.revoked ↔
      (500 : Int) * 1000 < 500000) ∧
    ((500 : Int) * 1000 = 500000 →
      verifyIDTokenAndCheckRevoked "proj1" 1000
        (fun _ => Except.ok ({ tokensValidAfterMillis := 500000 } : UserRecord))
        { raw := "h.p.s",
          header := { algorithm := "RS256", typ := "JWT", keyID := "k1" },
          payloadMap := [("iss", JsonValue.str "https://securetoken.google.com/proj1"),
                         ("aud", JsonValue.str "proj1"), ("exp", JsonValue.num 2000),
                         ("iat", JsonValue.num 500), ("sub", JsonValue.str "user2")],
          cryptoErr := none } =
        Except.ok { issuer := "https://securetoken.google.com/proj1", audience := "proj1",
                    expires := 2000, issuedAt := 500, subject := "user2", uid := "user2",
                    claims := [] }) :=
  claim_C4_revocation_boundary "proj1" 1000
    (fun _ => Except.ok ({ tokensValidAfterMillis := 500000 } : UserRecord))
    { raw := "h.p.s",
      header := { algorithm := "RS256", typ := "JWT", keyID := "k1" },
      payloadMap := [("iss", JsonValue.str "https://securetoken.google.com/proj1"),
                     ("aud", JsonValue.str "proj1"), ("exp", JsonValue.num 2000),
                     ("iat", JsonValue.num 500), ("sub", JsonValue.str "user2")],
      cryptoErr := none }
    { issuer := "https://securetoken.google.com/proj1", audience := "proj1",
      expires := 2000, issuedAt := 500, subject := "user2", uid := "user2",
      claims := [] }
    { tokensValidAfterMillis := 500000 } rfl rfl

/-- Claim C1 counterexample: a valid uid and a reserved-disjoint claim map
whose mint succeeds, yet VerifyIDToken rejects the minted token — even with
the cryptographic check passing — with the customTokenReceived error, since
the minted header has no key id and the minted audience is the custom-token
audience constant. The claimed mint-then-verify round trip therefore fails
at this input. -/
theorem claim_C1_counterexample :
    customTokenWithClaims (Except.ok "svc@example.com") 1000 "uid1"
        [("role", JsonValue.str "admin")] =
      Except.ok { header := { algorithm := "RS256", typ := "JWT", keyID := "" },
                  payload := { iss := "svc@example.com", sub := "svc@example.com",
                               aud := firebaseAudience, uid := "uid1", iat := 1000,
                               exp := 4600, claims := [("role", JsonValue.str "admin")] } } ∧
    verifyIDToken "proj3" 1000
      { raw := "header.payload.sig",
        header := { algorithm := "RS256", typ := "JWT", keyID := "" },
        payloadMap := encodePayload { iss := "svc@example.com", sub := "svc@example.com",
                                      aud := firebaseAudience, uid := "uid1", iat := 1000,
                                      exp := 4600, claims := [("role", JsonValue.str "admin")] },
        cryptoErr := none } = Except.error VerifyError.customTokenReceived :=
  ⟨rfl, rfl⟩

/-- Claim C1 (amended): minting with a valid uid and reserved-disjoint claim
map succeeds and the minted payload carries the input uid and claim map
verbatim, but VerifyIDToken never accepts the minted token: with the
cryptographic check passing it returns the customTokenReceived error,
because the minted header has no key id and the minted audience is the
custom-token audience constant. -/
theorem claim_C1_mint_verify_rejected (email : String) (now now2 : Int)
    (uid : String) (devClaims : ClaimMap) (info : JwtInfo) (projectID rawS : String)
    (hmint : customTokenWithClaims (Except.ok email) now uid devClaims = Except.ok info)
    (hp : projectID ≠ "") (hr : rawS ≠ "") :
    info.payload.uid = uid ∧ info.payload.claims = devClaims ∧
    verifyIDToken projectID now2
      { raw := rawS, header := info.header,
        payloadMap := encodePayload info.payload, cryptoErr := none } =
      Except.error VerifyError.customTokenReceived := by
  simp only [customTokenWithClaims] at hmint
  split at hmint
  · cases hmint
  · split at hmint
    · cases hmint
      refine ⟨rfl, rfl, ?_⟩
      simp [verifyIDToken, hp, hr, decodePayload, encodePayload, getStr, List.lookup]
    · cases hmint
    · cases hmint

/-- Claim C1 (amended) witness at a concrete mint. -/
theorem claim_C1_mint_verify_rejected_witness :
    ({ iss := "svc2@example.com", sub := "svc2@example.com", aud := firebaseAudience,
       uid := "uid2", iat := 77, exp := 3677,
       claims := [("tier", JsonValue.num 3)] } : CustomTokenPayload).uid = "uid2" ∧
    ({ iss := "svc2@example.com", sub := "svc2@example.com", aud := firebaseAudience,
       uid := "uid2", iat := 77, exp := 3677,
       claims := [("tier", JsonValue.num 3)] } : CustomTokenPayload).claims =
      [("tier", JsonValue.num 3)] ∧
    verifyIDToken "proj4" 77
      { raw := "x.y.z",
        header := { algorithm := "RS256", typ := "JWT", keyID := "" },
        payloadMap := encodePayload { iss := "svc2@example.com", sub := "svc2@example.com",
                                      aud := firebaseAudience, uid := "uid2", iat := 77,
                                      exp := 3677, claims := [("tier", JsonValue.num 3)] },
        cryptoErr := none } =
      Except.error VerifyError.customTokenReceived :=
  claim_C1_mint_verify_rejected "svc2@example.com" 77 77 "uid2"
    [("tier", JsonValue.num 3)] _ "proj4" "x.y.z" rfl (by decide) (by decide)

end FirebaseAuth
